import Mathlib

/-!
Verification of the rust-sdk conformance harness and streamable-HTTP
behaviors.  The Rust sources are shallowly embedded: pure functions become
Lean functions, peer interactions become explicit oracle parameters, and
async effects (notification sends) are recorded as traces.
-/

/-- JSON values, mirroring the subset of serde_json used by the sources.
Numbers are modelled as rationals (all literals appearing in the sources
are exactly representable). Objects are association lists in insertion
order. -/
inductive Json where
  | null : Json
  | bool : Bool → Json
  | num : Rat → Json
  | str : String → Json
  | arr : List Json → Json
  | obj : List (String × Json) → Json

/-- Lookup in a JSON object association list (serde_json Map::get). -/
def jlookup (kvs : List (String × Json)) (k : String) : Option Json :=
  match kvs with
  | [] => none
  | (k1, v) :: rest => if k1 = k then some v else jlookup rest k

/-- Association-list insert mirroring serde_json Map::insert: replace the
value when the key is present, otherwise append. -/
def mapInsert (kvs : List (String × Json)) (k : String) (v : Json) :
    List (String × Json) :=
  match kvs with
  | [] => [(k, v)]
  | (k1, v1) :: rest =>
    if k1 = k then (k1, v) :: rest else (k1, v1) :: mapInsert rest k v

/-- Rust as_str on a serde_json Value. -/
def Json.asStr : Json → Option String
  | .str s => some s
  | _ => none

/-- Modelled from the spec: the MCP error object `\x7bcode:int,
message:string, data?:any\x7d` of the wire model (rmcp ErrorData is not
among the provided sources; only its constructors and the reserved codes
of section 7 are used). -/
structure ErrorData where
  code : Int
  message : String
  data : Option Json

/-- Constructor for InvalidParams (-32602), per the error taxonomy. -/
def ErrorData.invalid_params (m : String) (d : Option Json) : ErrorData :=
  ⟨-32602, m, d⟩

/-- Constructor for Internal (-32603), per the error taxonomy. -/
def ErrorData.internal_error (m : String) (d : Option Json) : ErrorData :=
  ⟨-32603, m, d⟩

/-- Modelled from the spec: a Display rendering for ErrorData (code and
message). No claim depends on its exact shape; it only feeds formatted
tool-result texts. -/
def ErrorData.display (e : ErrorData) : String :=
  toString e.code ++ ": " ++ e.message

/-- Resource contents (text or blob), from the content data model. -/
inductive ResourceContents where
  | textResourceContents (uri : String) (mimeType : Option String)
      (text : String) (meta : Option Json)
  | blobResourceContents (uri : String) (mimeType : Option String)
      (blob : String) (meta : Option Json)

/-- Content union: Text, Image, Audio, EmbeddedResource. -/
inductive Content where
  | text (s : String)
  | image (data mimeType : String)
  | audio (data mimeType : String)
  | resource (rc : ResourceContents)

/-- Rust as_text on a content block, returning its text payload. -/
def Content.asText : Content → Option String
  | .text s => some s
  | _ => none

/-- CallToolResult as constructed by the conformance server. -/
structure CallToolResult where
  content : List Content
  structured_content : Option Json
  is_error : Option Bool
  meta : Option Json

/-- Progress tokens are opaque: a string or an integer. -/
inductive ProgressToken where
  | str (s : String)
  | num (n : Int)

/-- ProgressNotificationParam from the wire model. -/
structure ProgressNotificationParam where
  progress_token : ProgressToken
  progress : Rat
  total : Option Rat
  message : Option String

/-- Logging levels (only Debug and Info are exercised by the sources). -/
inductive LoggingLevel where
  | debug
  | info
  | notice
  | warning

/-- LoggingMessageNotificationParam from the wire model. -/
structure LoggingMessageNotificationParam where
  level : LoggingLevel
  logger : Option String
  data : Json

/-- A server-initiated notification attempted during tool handling. -/
inductive ServerNotification where
  | progress (p : ProgressNotificationParam)
  | loggingMessage (p : LoggingMessageNotificationParam)

/-- Modelled from the spec: String primitive schema (optional default);
the rmcp elicitation schema types are not among the provided sources,
only their use in the conformance client and server is. -/
structure StringSchema where
  description : Option String
  default : Option String

/-- Modelled from the spec: Number primitive schema (optional default). -/
structure NumberSchema where
  description : Option String
  default : Option Rat

/-- Modelled from the spec: Integer primitive schema (optional default). -/
structure IntegerSchema where
  description : Option String
  default : Option Int

/-- Modelled from the spec: Boolean primitive schema (optional default). -/
structure BooleanSchema where
  description : Option String
  default : Option Bool

/-- Modelled from the spec: untitled single-select enum (a list of string
values), with the optional default read by the conformance client. -/
structure UntitledSingleSelectEnumSchema where
  enumValues : List String
  description : Option String
  default : Option String

/-- Modelled from the spec: one titled choice `\x7bconst,title\x7d`. -/
structure TitledChoice where
  const : String
  title : String

/-- Modelled from the spec: titled single-select enum (list of
`\x7bconst,title\x7d`), with the optional default read by the client. -/
structure TitledSingleSelectEnumSchema where
  oneOf : List TitledChoice
  description : Option String
  default : Option String

/-- Modelled from the spec: untitled multi-select enum (array form). -/
structure UntitledMultiSelectEnumSchema where
  itemsEnumValues : List String
  description : Option String
  default : Option (List String)

/-- Modelled from the spec: titled multi-select enum (array form). -/
structure TitledMultiSelectEnumSchema where
  itemsAnyOf : List TitledChoice
  description : Option String
  default : Option (List String)

/-- Modelled from the spec: the legacy enum variant using enumNames. Like
the other primitive shapes it may carry a default value. -/
structure LegacyEnumSchema where
  enumValues : List String
  enumNames : List String
  description : Option String
  default : Option String

/-- Single-select enum schemas: untitled or titled. -/
inductive SingleSelectEnumSchema where
  | untitled (u : UntitledSingleSelectEnumSchema)
  | titled (t : TitledSingleSelectEnumSchema)

/-- Multi-select enum schemas: untitled or titled. -/
inductive MultiSelectEnumSchema where
  | untitled (u : UntitledMultiSelectEnumSchema)
  | titled (t : TitledMultiSelectEnumSchema)

/-- Enum schemas: single-select, multi-select, or the legacy variant. -/
inductive EnumSchema where
  | single (s : SingleSelectEnumSchema)
  | multi (m : MultiSelectEnumSchema)
  | legacy (l : LegacyEnumSchema)

/-- The closed set of primitive schema shapes of an elicitation form. -/
inductive PrimitiveSchema where
  | string (s : StringSchema)
  | number (n : NumberSchema)
  | integer (i : IntegerSchema)
  | boolean (b : BooleanSchema)
  | enum (e : EnumSchema)

/-- An elicitation object schema: named primitive properties plus the
optional required list. -/
structure ElicitationSchema where
  properties : List (String × PrimitiveSchema)
  required : Option (List String)

/-- Parameters of elicitation/create: the form variant carries a message
and a requested schema; the url variant is the other shape the client
handler's catch-all arm covers. -/
inductive CreateElicitationRequestParams where
  | formElicitationParams (meta : Option Json) (message : String)
      (requested_schema : ElicitationSchema)
  | urlElicitationParams (meta : Option Json) (message : String)
      (url : String)

/-- Elicitation actions. -/
inductive ElicitationAction where
  | accept
  | decline
  | cancel

/-- Result of elicitation/create. -/
structure CreateElicitationResult where
  action : ElicitationAction
  content : Option Json

/-- One step of the default-collection loop of
ElicitationDefaultsClientHandler::create_elicitation (conformance
client.rs lines 82-136): match on the property shape and insert its
declared default, if any; the legacy enum arm contributes nothing. -/
def elicitDefaultsStep (acc : List (String × Json)) (name : String)
    (prop : PrimitiveSchema) : List (String × Json) :=
  match prop with
  | .string s =>
    match s.default with
    | some d => mapInsert acc name (Json.str d)
    | none => acc
  | .number n =>
    match n.default with
    | some d => mapInsert acc name (Json.num d)
    | none => acc
  | .integer i =>
    match i.default with
    | some d => mapInsert acc name (Json.num (d : Rat))
    | none => acc
  | .boolean b =>
    match b.default with
    | some d => mapInsert acc name (Json.bool d)
    | none => acc
  | .enum e =>
    let val : Option Json :=
      match e with
      | .single (.untitled u) => u.default.map Json.str
      | .single (.titled t) => t.default.map Json.str
      | .multi (.untitled u) =>
        u.default.map (fun d => Json.arr (d.map Json.str))
      | .multi (.titled t) =>
        t.default.map (fun d => Json.arr (d.map Json.str))
      | .legacy _ => none
    match val with
    | some v => mapInsert acc name v
    | none => acc

/-- The defaults map collected over all properties (the for-loop of
create_elicitation). -/
def elicitDefaults (props : List (String × PrimitiveSchema)) :
    List (String × Json) :=
  props.foldl (fun acc p => elicitDefaultsStep acc p.1 p.2) []

/-- ElicitationDefaultsClientHandler::create_elicitation (conformance
client.rs lines 71-148): for a form request, accept with the map of
schema defaults; for any other request shape, accept with an empty
object. -/
def ElicitationDefaultsClientHandler.create_elicitation
    (request : CreateElicitationRequestParams) : CreateElicitationResult :=
  match request with
  | .formElicitationParams _ _ requested_schema =>
    ⟨ElicitationAction.accept,
      some (Json.obj (elicitDefaults requested_schema.properties))⟩
  | _ => ⟨ElicitationAction.accept, some (Json.obj [])⟩

/-- Decimal rendering of a scaled integer m with k fractional digits
(helper for printing terminating decimals the way serde_json does). -/
def decimalOfScaled (m : Int) (k : Nat) : String :=
  let ds := toString m.natAbs
  let ds := if ds.length < k + 1 then
    String.mk (List.replicate (k + 1 - ds.length) '0') ++ ds
  else ds
  let ip := ds.take (ds.length - k)
  let fp := ds.drop (ds.length - k)
  (if m < 0 then "-" else "") ++ ip ++ "." ++ fp

/-- Search for the smallest scale (up to the given fuel) at which a
rational becomes integral; rationals produced by the sources are
terminating decimals. -/
def firstScale (q : Rat) : Nat → Option Nat
  | 0 => none
  | fuel + 1 =>
    if (q * (10 : Rat) ^ (20 - fuel)).den = 1 then some (20 - fuel)
    else firstScale q fuel

/-- Number rendering mirroring serde_json: integers without a point,
terminating decimals with one (e.g. 95.5). -/
def ratToDecimalString (q : Rat) : String :=
  if q.den = 1 then toString q.num
  else
    match firstScale q 20 with
    | some k => decimalOfScaled (q * (10 : Rat) ^ k).num k
    | none => toString q.num ++ "/" ++ toString q.den

/-- JSON string quoting (the sources only serialize strings without
control characters). -/
def jsonQuote (s : String) : String :=
  let esc : Char → String := fun c =>
    if c = '\\' then "\\\\" else if c = '\"' then "\\\"" else String.singleton c
  "\"" ++ String.join (s.data.map esc) ++ "\""

mutual

/-- Compact JSON serialization (serde_json to_string), keys in the
insertion order of the embedded object. -/
def serializeJson : Json → String
  | .null => "null"
  | .bool true => "true"
  | .bool false => "false"
  | .num q => ratToDecimalString q
  | .str s => jsonQuote s
  | .arr xs => "[" ++ serializeJsonList xs ++ "]"
  | .obj kvs => "\x7b" ++ serializeJsonKVs kvs ++ "\x7d"

/-- Comma-separated serialization of array elements. -/
def serializeJsonList : List Json → String
  | [] => ""
  | [x] => serializeJson x
  | x :: y :: rest => serializeJson x ++ "," ++ serializeJsonList (y :: rest)

/-- Comma-separated serialization of object members. -/
def serializeJsonKVs : List (String × Json) → String
  | [] => ""
  | [(k, v)] => jsonQuote k ++ ":" ++ serializeJson v
  | (k, v) :: p :: rest =>
    jsonQuote k ++ ":" ++ serializeJson v ++ "," ++ serializeJsonKVs (p :: rest)

end

mutual

/-- Rust Debug rendering of a serde_json Value (as produced by the
`\x7b:?\x7d` format specifier in the conformance server). -/
def debugJson : Json → String
  | .null => "Null"
  | .bool true => "Bool(true)"
  | .bool false => "Bool(false)"
  | .num q => "Number(" ++ ratToDecimalString q ++ ")"
  | .str s => "String(" ++ jsonQuote s ++ ")"
  | .arr xs => "Array [" ++ debugJsonList xs ++ "]"
  | .obj kvs => "Object \x7b" ++ debugJsonKVs kvs ++ "\x7d"

/-- Debug rendering of array elements. -/
def debugJsonList : List Json → String
  | [] => ""
  | [x] => debugJson x
  | x :: y :: rest => debugJson x ++ ", " ++ debugJsonList (y :: rest)

/-- Debug rendering of object members. -/
def debugJsonKVs : List (String × Json) → String
  | [] => ""
  | [(k, v)] => jsonQuote k ++ ": " ++ debugJson v
  | (k, v) :: p :: rest =>
    jsonQuote k ++ ": " ++ debugJson v ++ ", " ++ debugJsonKVs (p :: rest)

end

/-- Rust Debug rendering of an Option of a serde_json Value. -/
def debugOptJson : Option Json → String
  | none => "None"
  | some v => "Some(" ++ debugJson v ++ ")"

/-- Roles of sampling messages. -/
inductive Role where
  | user
  | assistant

/-- A sampling message: a role and a list of content blocks. -/
structure SamplingMessage where
  role : Role
  content : List Content

/-- SamplingMessage::user_text. -/
def SamplingMessage.user_text (s : String) : SamplingMessage :=
  ⟨Role.user, [Content.text s]⟩

/-- Parameters of sampling/createMessage as constructed by the
conformance server (all optional knobs left unset). -/
structure CreateMessageRequestParams where
  meta : Option Json
  task : Option Json
  messages : List SamplingMessage
  max_tokens : Nat
  model_preferences : Option Json
  system_prompt : Option String
  include_context : Option String
  temperature : Option Rat
  stop_sequences : Option (List String)
  metadata : Option Json
  tools : Option Json
  tool_choice : Option Json

/-- Result of sampling/createMessage. -/
structure CreateMessageResult where
  message : SamplingMessage
  model : String
  stop_reason : Option String

/-- The peer reachable from a RequestContext, embedded as oracles: the
outcome of delivering a notification (discarded by the server code), and
the responses of the client to server-initiated requests. -/
structure PeerEnv where
  notifyDelivery : ServerNotification → Bool
  createMessage : CreateMessageRequestParams → Except ErrorData CreateMessageResult
  createElicitation : CreateElicitationRequestParams → Except ErrorData CreateElicitationResult

/-- Rust args.get(k).and_then(as_str). -/
def getStrArg (args : List (String × Json)) (k : String) : Option String :=
  (jlookup args k).bind Json.asStr

/-- ElicitationAction rendering used in the formatted tool texts. -/
def elicitationActionText : ElicitationAction → String
  | .accept => "accept"
  | .decline => "decline"
  | .cancel => "cancel"

/-- The schema sent by the test_elicitation tool (server.rs lines
408-421): username and email strings, both required, no defaults. -/
def testElicitationSchema : ElicitationSchema :=
  ⟨[("username", .string ⟨some "User\x27s response", none⟩),
    ("email", .string ⟨some "User\x27s email address", none⟩)],
    some ["username", "email"]⟩

/-- The schema sent by the test_elicitation_sep1034_defaults tool
(server.rs lines 458-488): every property carries a default. -/
def sep1034Schema : ElicitationSchema :=
  ⟨[("name", .string ⟨some "User\x27s name", some "John Doe"⟩),
    ("age", .integer ⟨some "User\x27s age", some 30⟩),
    ("score", .number ⟨some "User\x27s score", some (95.5 : Rat)⟩),
    ("status", .enum (.single (.untitled
      ⟨["active", "inactive", "pending"], some "User\x27s status", some "active"⟩))),
    ("verified", .boolean ⟨some "Whether user is verified", some true⟩)],
    none⟩

/-- The schema sent by the test_elicitation_sep1330_enums tool
(server.rs lines 525-563): one property per enum shape, no defaults. -/
def sep1330Schema : ElicitationSchema :=
  ⟨[("untitledSingle", .enum (.single (.untitled
      ⟨["option1", "option2", "option3"], none, none⟩))),
    ("titledSingle", .enum (.single (.titled
      ⟨[⟨"value1", "First Option"⟩, ⟨"value2", "Second Option"⟩,
        ⟨"value3", "Third Option"⟩], none, none⟩))),
    ("legacyEnum", .enum (.legacy
      ⟨["opt1", "opt2", "opt3"], ["Option One", "Option Two", "Option Three"],
        none, none⟩)),
    ("untitledMulti", .enum (.multi (.untitled
      ⟨["option1", "option2", "option3"], none, none⟩))),
    ("titledMulti", .enum (.multi (.titled
      ⟨[⟨"value1", "First Choice"⟩, ⟨"value2", "Second Choice"⟩,
        ⟨"value3", "Third Choice"⟩], none, none⟩)))],
    none⟩

/-- Base64 image and audio payloads used by the content tools. -/
def TEST_IMAGE_DATA : String :=
  "iVBORw0KGgoAAAANSUhEUgAAAAEAAAABCAYAAAAfFcSJAAAADUlEQVR42mP8/5+hHgAHggJ/PchI7wAAAABJRU5ErkJggg=="

/-- Base64 WAV payload (silence). -/
def TEST_AUDIO_DATA : String :=
  "UklGRiQAAABXQVZFZm10IBAAAAABAAEARKwAAIhYAQACABAAZGF0YQAAAAA="

/-- The fixed tool catalog of ConformanceServer::call_tool: exactly the
names with a dedicated match arm; anything else falls through to the
invalid-params arm. -/
def conformanceToolCatalog : List String :=
  ["test_simple_text", "test_image_content", "test_audio_content",
   "test_embedded_resource", "test_multiple_content_types",
   "test_tool_with_logging", "test_error_handling",
   "test_tool_with_progress", "test_sampling", "test_elicitation",
   "test_elicitation_sep1034_defaults", "test_elicitation_sep1330_enums",
   "json_schema_2020_12_tool", "test_reconnection"]

/-- One attempted notification: the parameters sent and the (discarded)
delivery outcome reported by the peer. -/
def attemptNotify (env : PeerEnv) (n : ServerNotification) :
    ServerNotification × Bool :=
  (n, env.notifyDelivery n)

/-- ConformanceServer::call_tool (server.rs lines 227-624), embedded as a
function from the tool name, arguments, the request's progress token and
the peer oracles to the attempted-notification trace paired with the
tool outcome. Sleeps are dropped; each match arm is translated
one-to-one as an if-chain on the name (Rust match on &str). -/
def ConformanceServer.call_tool (env : PeerEnv)
    (progressToken : Option ProgressToken) (name : String)
    (argumentsOpt : Option (List (String × Json))) :
    List (ServerNotification × Bool) × Except ErrorData CallToolResult :=
  let args := argumentsOpt.getD []
  if name = "test_simple_text" then
    ([], .ok ⟨[.text "This is a simple text response for testing."],
      none, none, none⟩)
  else if name = "test_image_content" then
    ([], .ok ⟨[.image TEST_IMAGE_DATA "image/png"], none, none, none⟩)
  else if name = "test_audio_content" then
    ([], .ok ⟨[.audio TEST_AUDIO_DATA "audio/wav"], none, none, none⟩)
  else if name = "test_embedded_resource" then
    ([], .ok ⟨[.resource (.textResourceContents "test://embedded-resource"
      (some "text/plain") "This is an embedded resource content." none)],
      none, none, none⟩)
  else if name = "test_multiple_content_types" then
    ([], .ok ⟨[.text "Multiple content types test:",
      .image TEST_IMAGE_DATA "image/png",
      .resource (.textResourceContents "test://mixed-content-resource"
        (some "application/json") "\x7b\"test\":\"data\",\"value\":123\x7d" none)],
      none, none, none⟩)
  else if name = "test_tool_with_logging" then
    (["Tool execution started", "Tool processing data",
      "Tool execution completed"].map (fun m => attemptNotify env
        (.loggingMessage ⟨LoggingLevel.info, some "conformance-server", .str m⟩)),
     .ok ⟨[.text "Logging test completed"], none, none, none⟩)
  else if name = "test_error_handling" then
    ([], .ok ⟨[.text "This tool intentionally returns an error for testing"],
      none, some true, none⟩)
  else if name = "test_tool_with_progress" then
    (([((0 : Rat), "Starting"), (50, "Halfway"), (100, "Complete")].filterMap
        (fun pm => progressToken.map (fun token => attemptNotify env
          (.progress ⟨token, pm.1, some 100, some pm.2⟩)))),
     .ok ⟨[.text "Progress test completed"], none, none, none⟩)
  else if name = "test_sampling" then
    let prompt := (getStrArg args "prompt").getD "Hello"
    match env.createMessage ⟨none, none, [SamplingMessage.user_text prompt],
        100, none, none, none, none, none, none, none, none⟩ with
    | .ok result =>
      let text := ((result.message.content.head?).bind Content.asText).getD
        "No text response"
      ([], .ok ⟨[.text ("LLM response: " ++ text)], none, none, none⟩)
    | .error e =>
      ([], .ok ⟨[.text ("Sampling error: " ++ e.display)], none, some true, none⟩)
  else if name = "test_elicitation" then
    let message := (getStrArg args "message").getD
      "Please provide your information"
    match env.createElicitation (.formElicitationParams none message
        testElicitationSchema) with
    | .ok result =>
      ([], .ok ⟨[.text ("User response: action="
        ++ elicitationActionText result.action ++ ", content="
        ++ debugOptJson result.content)], none, none, none⟩)
    | .error e =>
      ([], .ok ⟨[.text ("Elicitation error: " ++ e.display)], none, some true, none⟩)
  else if name = "test_elicitation_sep1034_defaults" then
    match env.createElicitation (.formElicitationParams none
        "Please provide values (all have defaults)" sep1034Schema) with
    | .ok result =>
      ([], .ok ⟨[.text ("Elicitation completed: action="
        ++ elicitationActionText result.action ++ ", content="
        ++ debugOptJson result.content)], none, none, none⟩)
    | .error e =>
      ([], .ok ⟨[.text ("Elicitation error: " ++ e.display)], none, some true, none⟩)
  else if name = "test_elicitation_sep1330_enums" then
    match env.createElicitation (.formElicitationParams none
        "Test enum schema improvements" sep1330Schema) with
    | .ok result =>
      ([], .ok ⟨[.text ("Enum elicitation completed: action="
        ++ elicitationActionText result.action)], none, none, none⟩)
    | .error e =>
      ([], .ok ⟨[.text ("Elicitation error: " ++ e.display)], none, some true, none⟩)
  else if name = "json_schema_2020_12_tool" then
    let who := (getStrArg args "name").getD "world"
    ([], .ok ⟨[.text ("Hello, " ++ who ++ "!")], none, none, none⟩)
  else if name = "test_reconnection" then
    ([], .ok ⟨[.text "Reconnection test completed"], none, none, none⟩)
  else
    ([], .error (ErrorData.invalid_params ("Unknown tool: " ++ name) none))

/-- Streamable-HTTP server configuration (the fields exercised by the
POST-format tests; keep-alive and cancellation are transport plumbing). -/
structure StreamableHttpServerConfig where
  stateful_mode : Bool
  json_response : Bool

/-- An HTTP response: status, the Content-Type header and the body. -/
structure HttpResponse where
  status : Nat
  contentType : String
  body : String

/-- Modelled from the spec: serialization of the InitializeResult produced
for the initialize request (a result object; its exact fields are not
constrained by the claims). -/
def initializeResultJson : Json :=
  Json.obj [("protocolVersion", .str "2025-03-26"),
    ("capabilities", .obj []),
    ("serverInfo", .obj [("name", .str "rmcp"), ("version", .str "0.1.0")])]

/-- The JSON-RPC response frame for a request with the given id. -/
def initResponseFrame (id : Int) : Json :=
  Json.obj [("jsonrpc", .str "2.0"), ("id", .num (id : Rat)),
    ("result", initializeResultJson)]

/-- SSE framing of a single response frame. -/
def sseBody (frame : Json) : String :=
  "data: " ++ serializeJson frame ++ "\n\n"

/-- Modelled from the spec: the POST arm of the streamable-HTTP server
(StreamableHttpService is not among the provided sources; only its tests
are). Per sections 4.5 and 8, a POST of the initialize request returns
200 and a single application/json frame exactly when the server is
stateless with json_response set; otherwise the response frame is
wrapped as a text/event-stream data event (stateful mode always uses
SSE). -/
def serveInitializePost (config : StreamableHttpServerConfig) (id : Int) :
    HttpResponse :=
  let frame := initResponseFrame id
  if !config.stateful_mode && config.json_response then
    ⟨200, "application/json", serializeJson frame⟩
  else
    ⟨200, "text/event-stream", sseBody frame⟩

/-- Substring containment, used to state the `data:` framing check of the
SSE tests. -/
def strContains (s pat : String) : Prop :=
  ∃ a b, s = a ++ pat ++ b

/-- Outcome of the scope-retry-limit client loop: either some iteration
completed without a 403, or the retry limit was hit; both record how many
loop iterations (each a full authorization plus tool sweep) ran. -/
inductive RetryOutcome where
  | success (iterations : Nat)
  | limitReached (iterations : Nat) (msg : String)

/-- Number of loop iterations performed. -/
def RetryOutcome.iterations : RetryOutcome → Nat
  | .success n => n
  | .limitReached n _ => n

/-- The loop body condition of run_auth_scope_retry_limit_client: the
tool sweep sets got_403 when some call_tool returns Err (the Rust loop
breaks at the first error; any error in the sweep makes the flag true).
toolErrs gives, per iteration, the error flags of the swept tools. -/
def got403 (toolErrs : Nat → List Bool) (iter : Nat) : Bool :=
  (toolErrs iter).any id

/-- The loop of run_auth_scope_retry_limit_client (client.rs lines
449-511): each iteration re-authorizes and sweeps the tools; without a
403 the loop breaks with success, otherwise the attempt counter is
incremented and, at the limit, the loop errors out. -/
def scopeRetryAux (toolErrs : Nat → List Bool) (maxRetries : Nat)
    (iter attempt : Nat) : RetryOutcome :=
  if got403 toolErrs iter = false then
    .success (iter + 1)
  else if attempt + 1 ≥ maxRetries then
    .limitReached (iter + 1) "Scope retry limit reached"
  else
    scopeRetryAux toolErrs maxRetries (iter + 1) (attempt + 1)
termination_by maxRetries - attempt
decreasing_by omega

/-- run_auth_scope_retry_limit_client: max_retries is 3, both counters
start at 0. -/
def run_auth_scope_retry_limit_client (toolErrs : Nat → List Bool) :
    RetryOutcome :=
  scopeRetryAux toolErrs 3 0 0

/-- The base64url alphabet (URL_SAFE, no padding). -/
def b64urlAlphabet : List Char :=
  "ABCDEFGHIJKLMNOPQRSTUVWXYZabcdefghijklmnopqrstuvwxyz0123456789-_".data

/-- Character for a sextet value. -/
def b64urlChar (n : Nat) : Char :=
  b64urlAlphabet.getD n 'A'

/-- Base64url (no padding) encoding of a byte list, as performed by
base64::URL_SAFE_NO_PAD. -/
def base64urlEncode : List Nat → String
  | [] => ""
  | [a] =>
    String.mk [b64urlChar (a / 4), b64urlChar (a % 4 * 16)]
  | [a, b] =>
    String.mk [b64urlChar (a / 4), b64urlChar (a % 4 * 16 + b / 16),
      b64urlChar (b % 16 * 4)]
  | a :: b :: c :: rest =>
    String.mk [b64urlChar (a / 4), b64urlChar (a % 4 * 16 + b / 16),
      b64urlChar (b % 16 * 4 + c / 64), b64urlChar (c % 64)]
      ++ base64urlEncode rest

/-- Bytes of an ASCII string (every string fed to the JWT builder is
ASCII). -/
def strBytes (s : String) : List Nat :=
  s.data.map Char.toNat

/-- The fixed JWT header written by openssl_free_ec_sign:
exactly `\x7b"alg":"ES256","typ":"JWT"\x7d`. -/
def jwtHeaderJson : String :=
  "\x7b\"alg\":\"ES256\",\"typ\":\"JWT\"\x7d"

/-- The claims of the client assertion. -/
structure JwtClaims where
  iss : String
  sub : String
  aud : String
  iat : Nat
  exp : Nat
  jti : String

/-- The payload object built by openssl_free_ec_sign (client.rs lines
701-708): iss and sub are the client id, aud the token endpoint, iat the
current epoch seconds, exp is iat + 300, and jti derives from iat. -/
def jwtPayloadJson (clientId audience : String) (now : Nat) : Json :=
  Json.obj [("iss", .str clientId), ("sub", .str clientId),
    ("aud", .str audience), ("iat", .num (now : Rat)),
    ("exp", .num ((now + 300 : Nat) : Rat)),
    ("jti", .str ("jti-" ++ toString now))]

/-- The base64url-encoded header.payload signing input. -/
def jwtSigningInput (clientId audience : String) (now : Nat) : String :=
  base64urlEncode (strBytes jwtHeaderJson) ++ "." ++
    base64urlEncode (strBytes (serializeJson (jwtPayloadJson clientId audience now)))

/-- openssl_free_ec_sign (client.rs lines 685-721), with the ECDSA P-256
primitive of the p256 crate abstracted as the sign parameter (it is
applied to the raw scalar extracted from the PEM, which is fixed here
inside sign): base64url-encode header and payload, sign the signing
input, and emit header.payload.signature. now is the UNIX_EPOCH seconds
read at call time. -/
def openssl_free_ec_sign (sign : List Nat → List Nat)
    (clientId audience : String) (now : Nat) : String :=
  let signingInput := jwtSigningInput clientId audience now
  let sigB64 := base64urlEncode (sign (strBytes signingInput))
  signingInput ++ "." ++ sigB64

/-- Slice der[a..b].to_vec modelling Rust slice semantics: none exactly
when the range would be out of bounds (a Rust panic). -/
def sliceOpt (der : List Nat) (a b : Nat) : Option (List Nat) :=
  if a ≤ b ∧ b ≤ der.length then some ((der.drop a).take (b - a)) else none

/-- The error message of extract_ec_private_key. -/
def ecExtractErr : String :=
  "Could not extract 32-byte EC private key from PKCS#8 DER"

/-- The scan loop of extract_ec_private_key (client.rs lines 739-746):
for i in 0..len.saturating_sub(33), if der[i] is 0x04, der[i+1] is 0x20
and i+34 fits, return der[i+2..i+34]. The bounded for-range is embedded
as structural recursion on the number of remaining iterations (the
driver below starts it at len.saturating_sub(33), the range's size).
Indexing and slicing are wrapped in Option so that an out-of-bounds
access (a Rust panic) would surface as none. -/
def ecScanGo (der : List Nat) : Nat → Nat → Option (Except String (List Nat))
  | 0, _ => some (.error ecExtractErr)
  | rem + 1, i =>
    match der.get? i, der.get? (i + 1) with
    | some a, some b =>
      if a = 4 ∧ b = 32 ∧ i + 34 ≤ der.length then
        match sliceOpt der (i + 2) (i + 34) with
        | some bytes => some (.ok bytes)
        | none => none
      else ecScanGo der rem (i + 1)
    | _, _ => none

/-- extract_ec_private_key (client.rs lines 734-747): run the scan over
the whole range 0..len.saturating_sub(33). -/
def extract_ec_private_key (der : List Nat) :
    Option (Except String (List Nat)) :=
  ecScanGo der (der.length - 33) 0

/-- A position qualifies when it starts the byte pair 0x04 0x20 and at
least 32 bytes follow the pair. -/
def ecQualifies (der : List Nat) (i : Nat) : Prop :=
  der.get? i = some 4 ∧ der.get? (i + 1) = some 32 ∧ i + 34 ≤ der.length

instance (der : List Nat) (i : Nat) : Decidable (ecQualifies der i) := by
  unfold ecQualifies
  infer_instance

/-- The Json wrapper of tool outputs (rmcp handler wrapper type). -/
structure JsonWrapped (α : Type) where
  val : α

/-- sync_tool_wrapper_with_empty_params (tool_traits.rs lines 123-129):
invoke the tool on the service with the default-constructed parameter,
wrap the output in Json and convert the error into ErrorData. invoke,
defaultParam and intoErrorData stand for T::invoke,
T::Parameter::default() and Into of T::Error. -/
def sync_tool_wrapper_with_empty_params {S P O E : Type}
    (invoke : S → P → Except E O) (intoErrorData : E → ErrorData)
    (defaultParam : P) (service : S) : Except ErrorData (JsonWrapped O) :=
  ((invoke service defaultParam).map JsonWrapped.mk).mapError intoErrorData

/-- async_tool_wrapper_with_empty_params (tool_traits.rs lines 145-154):
the awaited future computes the same value as the sync form; the
embedding evaluates the awaited result. -/
def async_tool_wrapper_with_empty_params {S P O E : Type}
    (invoke : S → P → Except E O) (intoErrorData : E → ErrorData)
    (defaultParam : P) (service : S) : Except ErrorData (JsonWrapped O) :=
  ((invoke service defaultParam).map JsonWrapped.mk).mapError intoErrorData

/-- A concrete peer environment for witnesses. -/
def demoPeerEnv : PeerEnv :=
  ⟨fun _ => true,
   fun _ => .error (ErrorData.internal_error "no sampling" none),
   fun _ => .error (ErrorData.internal_error "no elicitation" none)⟩

/-- Association lookup on the property list of an elicitation schema. -/
def lookupProp (props : List (String × PrimitiveSchema)) (k : String) :
    Option PrimitiveSchema :=
  match props with
  | [] => none
  | (k1, p) :: rest => if k1 = k then some p else lookupProp rest k

/-- The value the default-filling handler actually inserts for a
property shape (read off the match arms of create_elicitation): the
declared default for every shape except the legacy enum, which
contributes nothing. -/
def insertedDefault : PrimitiveSchema → Option Json
  | .string s => s.default.map Json.str
  | .number n => n.default.map Json.num
  | .integer i => i.default.map (fun d => Json.num (d : Rat))
  | .boolean b => b.default.map Json.bool
  | .enum (.single (.untitled u)) => u.default.map Json.str
  | .enum (.single (.titled t)) => t.default.map Json.str
  | .enum (.multi (.untitled u)) =>
    u.default.map (fun d => Json.arr (d.map Json.str))
  | .enum (.multi (.titled t)) =>
    t.default.map (fun d => Json.arr (d.map Json.str))
  | .enum (.legacy _) => none

/-- The default a property schema declares, stated from the claim's
words: every shape, the legacy enum included, may declare one. -/
def declaredDefault : PrimitiveSchema → Option Json
  | .string s => s.default.map Json.str
  | .number n => n.default.map Json.num
  | .integer i => i.default.map (fun d => Json.num (d : Rat))
  | .boolean b => b.default.map Json.bool
  | .enum (.single (.untitled u)) => u.default.map Json.str
  | .enum (.single (.titled t)) => t.default.map Json.str
  | .enum (.multi (.untitled u)) =>
    u.default.map (fun d => Json.arr (d.map Json.str))
  | .enum (.multi (.titled t)) =>
    t.default.map (fun d => Json.arr (d.map Json.str))
  | .enum (.legacy l) => l.default.map Json.str

/-- A form schema with a single legacy-enum property that declares a
default. -/
def legacyDefaultSchema : ElicitationSchema :=
  ⟨[("choice", .enum (.legacy ⟨["opt1", "opt2"], ["One", "Two"], none,
    some "opt1"⟩))], none⟩

/-- A property list with a single legacy-enum property declaring a
default, for the C10 witness. -/
def demoLegacyProps : List (String × PrimitiveSchema) :=
  [("pick", .enum (.legacy ⟨["a", "b"], ["A", "B"], none, some "a"⟩))]

/-- A concrete PKCS#8-like byte string for the C7 witness: the pair
0x04 0x20 at position 0 followed by 32 key bytes. -/
def demoDer : List Nat :=
  4 :: 32 :: List.range 32

/-- The fold step of create_elicitation, as a binary function. -/
def stepFn : List (String × Json) → String × PrimitiveSchema → List (String × Json) :=
  fun acc p => elicitDefaultsStep acc p.1 p.2

/-- The contribution of one property to the defaults map. -/
def propOut (p : String × PrimitiveSchema) : Option (String × Json) :=
  (insertedDefault p.2).map (fun v => (p.1, v))

/-! Theorems. -/

/-- C1: for a POST of the initialize request (id 1) to a stateless
streamable-HTTP server, the response status is 200 and the format follows
json_response: with it set, an application/json body holding a single
frame with jsonrpc "2.0", the request id 1 and a result object; with it
unset, a text/event-stream body containing `data:`. -/
theorem claim_C1_stateless_post_format :
    (serveInitializePost ⟨false, true⟩ 1).status = 200 ∧
    (serveInitializePost ⟨false, true⟩ 1).contentType = "application/json" ∧
    (serveInitializePost ⟨false, true⟩ 1).body =
      serializeJson (initResponseFrame 1) ∧
    (∃ kvs, initResponseFrame 1 = Json.obj kvs ∧
      jlookup kvs "jsonrpc" = some (.str "2.0") ∧
      jlookup kvs "id" = some (.num 1) ∧
      ∃ rkvs, jlookup kvs "result" = some (.obj rkvs)) ∧
    (serveInitializePost ⟨false, false⟩ 1).status = 200 ∧
    (serveInitializePost ⟨false, false⟩ 1).contentType = "text/event-stream" ∧
    strContains (serveInitializePost ⟨false, false⟩ 1).body "data:" := by
  refine ⟨rfl, rfl, rfl, ?_, rfl, rfl, ?_⟩
  · exact ⟨_, rfl, rfl, rfl, _, rfl⟩
  · exact ⟨"", " " ++ serializeJson (initResponseFrame 1) ++ "\n\n", rfl⟩

/-- C2: in stateful mode the json_response flag has no effect on the POST
response: the initialize POST always gets 200 with text/event-stream,
never application/json. -/
theorem claim_C2_stateful_ignores_json_response :
    (∀ id : Int, serveInitializePost ⟨true, true⟩ id =
      serveInitializePost ⟨true, false⟩ id) ∧
    (serveInitializePost ⟨true, true⟩ 1).status = 200 ∧
    (serveInitializePost ⟨true, true⟩ 1).contentType = "text/event-stream" ∧
    (serveInitializePost ⟨true, true⟩ 1).contentType ≠ "application/json" := by
  refine ⟨fun id => rfl, rfl, rfl, ?_⟩
  decide

/-- C3: a call of test_tool_with_progress with a progress token t
attempts exactly three notifications/progress referencing t, with
progress 0, 50, 100 and total 100, and returns the successful result with
text "Progress test completed"; without a token no notification is
attempted and the same result is returned; and the delivery outcomes and
peer oracles (env versus env2) never change the returned result. -/
theorem claim_C3_progress_tool (env env2 : PeerEnv) (t : ProgressToken)
    (argsOpt : Option (List (String × Json))) :
    (ConformanceServer.call_tool env (some t) "test_tool_with_progress"
      argsOpt).1.map Prod.fst =
      [ServerNotification.progress ⟨t, 0, some 100, some "Starting"⟩,
       .progress ⟨t, 50, some 100, some "Halfway"⟩,
       .progress ⟨t, 100, some 100, some "Complete"⟩] ∧
    (ConformanceServer.call_tool env (some t) "test_tool_with_progress"
      argsOpt).2 =
      .ok ⟨[.text "Progress test completed"], none, none, none⟩ ∧
    (ConformanceServer.call_tool env none "test_tool_with_progress"
      argsOpt).1 = [] ∧
    (ConformanceServer.call_tool env none "test_tool_with_progress"
      argsOpt).2 =
      .ok ⟨[.text "Progress test completed"], none, none, none⟩ ∧
    (ConformanceServer.call_tool env (some t) "test_tool_with_progress"
      argsOpt).2 =
      (ConformanceServer.call_tool env2 (some t) "test_tool_with_progress"
        argsOpt).2 := by
  refine ⟨?_, ?_, ?_, ?_, ?_⟩ <;> simp [ConformanceServer.call_tool, attemptNotify]

/-- C6: the client assertion is header.payload.signature where the header
is exactly `\x7b"alg":"ES256","typ":"JWT"\x7d` (base64url-encoding to the
canonical ES256 header), the payload claims satisfy iss = sub =
client_id, aud = token endpoint, iat = now, exp = iat + 300 with a jti
present, and the signature bytes are produced by the P-256 signer applied
to precisely the base64url signing input. -/
theorem claim_C6_jwt_client_assertion (sign : List Nat → List Nat)
    (clientId audience : String) (now : Nat) :
    openssl_free_ec_sign sign clientId audience now =
      jwtSigningInput clientId audience now ++ "." ++
        base64urlEncode (sign (strBytes (jwtSigningInput clientId audience now))) ∧
    jwtSigningInput clientId audience now =
      base64urlEncode (strBytes jwtHeaderJson) ++ "." ++
        base64urlEncode (strBytes (serializeJson (jwtPayloadJson clientId audience now))) ∧
    base64urlEncode (strBytes jwtHeaderJson) =
      "eyJhbGciOiJFUzI1NiIsInR5cCI6IkpXVCJ9" ∧
    (∃ kvs, jwtPayloadJson clientId audience now = Json.obj kvs ∧
      jlookup kvs "iss" = some (.str clientId) ∧
      jlookup kvs "sub" = some (.str clientId) ∧
      jlookup kvs "aud" = some (.str audience) ∧
      jlookup kvs "iat" = some (.num (now : Rat)) ∧
      jlookup kvs "exp" = some (.num ((now : Rat) + 300)) ∧
      ∃ j, jlookup kvs "jti" = some (.str j)) := by
  refine ⟨rfl, rfl, rfl, _, rfl, ?_, ?_, ?_, ?_, ?_, ⟨"jti-" ++ toString now, ?_⟩⟩ <;>
    simp [jlookup]

/-- C8: calling test_error_handling yields a successful CallToolResult
with isError true (the content-level failure form), while any name
outside the fixed catalog yields a method-level InvalidParams (-32602)
error and never a CallToolResult. -/
theorem claim_C8_tool_failure_forms (env : PeerEnv)
    (tok : Option ProgressToken) (argsOpt : Option (List (String × Json))) :
    ConformanceServer.call_tool env tok "test_error_handling" argsOpt =
      ([], .ok ⟨[.text "This tool intentionally returns an error for testing"],
        none, some true, none⟩) ∧
    ∀ name : String, name ∉ conformanceToolCatalog →
      ConformanceServer.call_tool env tok name argsOpt =
        ([], .error (ErrorData.invalid_params ("Unknown tool: " ++ name) none)) ∧
      (ErrorData.invalid_params ("Unknown tool: " ++ name) none).code = -32602 ∧
      ∀ r, (ConformanceServer.call_tool env tok name argsOpt).2 ≠ Except.ok r := by
  constructor
  · simp [ConformanceServer.call_tool]
  · intro name h
    simp [conformanceToolCatalog] at h
    obtain ⟨h1, h2, h3, h4, h5, h6, h7, h8, h9, h10, h11, h12, h13, h14⟩ := h
    refine ⟨?_, rfl, ?_⟩ <;>
      simp [ConformanceServer.call_tool, h1, h2, h3, h4, h5, h6, h7, h8, h9,
        h10, h11, h12, h13, h14]

/-- Witness for C8 at the concrete unknown name no_such_tool. -/
theorem claim_C8_witness :
    ConformanceServer.call_tool demoPeerEnv none "no_such_tool" none =
      ([], .error (ErrorData.invalid_params ("Unknown tool: " ++ "no_such_tool")
        none)) :=
  ((claim_C8_tool_failure_forms demoPeerEnv none none).2 "no_such_tool"
    (by decide)).1

/-- C9: with a default-constructible parameter, the empty-params wrappers
(sync and async) return exactly the invoker's Result mapped through the
Json wrapper and the error conversion; in particular each invocation
yields either the wrapped Ok output or the converted error, never
anything else. -/
theorem claim_C9_empty_params_wrappers {S P O E : Type}
    (invoke : S → P → Except E O) (intoErrorData : E → ErrorData)
    (defaultParam : P) (service : S) :
    sync_tool_wrapper_with_empty_params invoke intoErrorData defaultParam service =
      (match invoke service defaultParam with
       | .ok o => .ok ⟨o⟩
       | .error e => .error (intoErrorData e)) ∧
    async_tool_wrapper_with_empty_params invoke intoErrorData defaultParam service =
      sync_tool_wrapper_with_empty_params invoke intoErrorData defaultParam service ∧
    (∀ o, invoke service defaultParam = .ok o →
      sync_tool_wrapper_with_empty_params invoke intoErrorData defaultParam service =
        .ok ⟨o⟩) ∧
    (∀ e, invoke service defaultParam = .error e →
      sync_tool_wrapper_with_empty_params invoke intoErrorData defaultParam service =
        .error (intoErrorData e)) ∧
    ((∃ o, sync_tool_wrapper_with_empty_params invoke intoErrorData defaultParam
        service = .ok o) ∨
     (∃ e, sync_tool_wrapper_with_empty_params invoke intoErrorData defaultParam
        service = .error e)) := by
  unfold sync_tool_wrapper_with_empty_params async_tool_wrapper_with_empty_params
  rcases h : invoke service defaultParam with o | e <;>
    simp [Except.map, Except.mapError, h]

/-- Witness for C9: a concrete sync tool whose invoker succeeds on the
default parameter. -/
theorem claim_C9_witness :
    sync_tool_wrapper_with_empty_params
      (fun (_ : Unit) (n : Nat) => if n = 0 then Except.ok n else Except.error ())
      (fun _ => ErrorData.internal_error "internal error" none) 0 () =
      .ok ⟨0⟩ :=
  (claim_C9_empty_params_wrappers
    (fun (_ : Unit) (n : Nat) => if n = 0 then Except.ok n else Except.error ())
    (fun _ => ErrorData.internal_error "internal error" none) 0 ()).2.2.1 0 (by simp)

/-- Fuel-indexed bound on the retry loop: while the attempt counter is
below the limit, at most max - attempt further iterations run. -/
theorem scopeRetryAux_iterations_le :
    ∀ (k : Nat) (f : Nat → List Bool) (max iter attempt : Nat),
      max - attempt ≤ k → attempt < max →
      (scopeRetryAux f max iter attempt).iterations ≤ iter + (max - attempt) := by
  intro k
  induction k with
  | zero => intro f max iter attempt h1 h2; omega
  | succ k ih =>
    intro f max iter attempt h1 h2
    unfold scopeRetryAux
    split_ifs with hg hl
    · simp only [RetryOutcome.iterations]; omega
    · simp only [RetryOutcome.iterations]; omega
    · have := ih f max (iter + 1) (attempt + 1) (by omega) (by omega)
      omega

/-- C5 counterexample to the claim as stated: under a persistent 403 the
loop performs exactly three failing iterations (three authorization
attempts in total) before surfacing the terminal error, so no fourth
consecutive failure ever happens. -/
theorem claim_C5_cex_third_failure_is_terminal :
    run_auth_scope_retry_limit_client (fun _ => [true]) =
      .limitReached 3 "Scope retry limit reached" ∧
    (run_auth_scope_retry_limit_client (fun _ => [true])).iterations = 3 ∧
    (run_auth_scope_retry_limit_client (fun _ => [true])).iterations ≠ 4 := by
  refine ⟨?_, ?_, ?_⟩ <;>
    simp [run_auth_scope_retry_limit_client, scopeRetryAux, got403,
      RetryOutcome.iterations]

/-- C5 amended: the loop is bounded by 3 iterations in every run (hence
at most 2 re-authorizations after a failed call), and as soon as the
first three sweeps all hit a 403 the retry counter reaches the limit of
3 and the function terminates with the error "Scope retry limit reached"
rather than looping further: the third consecutive failure is terminal. -/
theorem claim_C5_amended_retry_bound (f : Nat → List Bool) :
    (run_auth_scope_retry_limit_client f).iterations ≤ 3 ∧
    (got403 f 0 = true → got403 f 1 = true → got403 f 2 = true →
      run_auth_scope_retry_limit_client f =
        .limitReached 3 "Scope retry limit reached") := by
  constructor
  · have := scopeRetryAux_iterations_le 3 f 3 0 0 (by omega) (by omega)
    simpa [run_auth_scope_retry_limit_client] using this
  · intro h0 h1 h2
    unfold run_auth_scope_retry_limit_client
    unfold scopeRetryAux
    simp [h0]
    unfold scopeRetryAux
    simp [h1]
    unfold scopeRetryAux
    simp [h2]

/-- Witness for C5: the bound and the terminal error at the concrete
persistently-403 oracle. -/
theorem claim_C5_witness :
    (run_auth_scope_retry_limit_client (fun _ => [true])).iterations ≤ 3 ∧
    run_auth_scope_retry_limit_client (fun _ => [true]) =
      .limitReached 3 "Scope retry limit reached" :=
  ⟨(claim_C5_amended_retry_bound (fun _ => [true])).1,
   (claim_C5_amended_retry_bound (fun _ => [true])).2 rfl rfl rfl⟩

/-- The handler's match arms insert exactly the non-legacy declared
default. -/
theorem elicitDefaultsStep_eq (acc : List (String × Json)) (name : String)
    (prop : PrimitiveSchema) :
    elicitDefaultsStep acc name prop =
      match insertedDefault prop with
      | some v => mapInsert acc name v
      | none => acc := by
  rcases prop with s | n | i | b | e
  · rcases s with ⟨d, df⟩; rcases df <;> rfl
  · rcases n with ⟨d, df⟩; rcases df <;> rfl
  · rcases i with ⟨d, df⟩; rcases df <;> rfl
  · rcases b with ⟨d, df⟩; rcases df <;> rfl
  · rcases e with (u | t) | (u | t) | l
    · rcases u with ⟨v, d, df⟩; rcases df <;> rfl
    · rcases t with ⟨v, d, df⟩; rcases df <;> rfl
    · rcases u with ⟨v, d, df⟩; rcases df <;> rfl
    · rcases t with ⟨v, d, df⟩; rcases df <;> rfl
    · rfl

/-- Inserting a fresh key appends it. -/
theorem mapInsert_eq_append (acc : List (String × Json)) (k : String)
    (v : Json) (h : k ∉ acc.map Prod.fst) :
    mapInsert acc k v = acc ++ [(k, v)] := by
  induction acc with
  | nil => rfl
  | cons p rest ih =>
    obtain ⟨k1, v1⟩ := p
    simp only [List.map_cons, List.mem_cons, not_or] at h
    simp only [mapInsert, List.cons_append]
    rw [if_neg (fun e => h.1 e.symm), ih h.2]

/-- The defaults fold over duplicate-free properties collects each
property's contribution in order. -/
theorem elicitDefaults_go (props : List (String × PrimitiveSchema)) :
    ∀ acc : List (String × Json),
      (props.map Prod.fst).Nodup →
      (∀ p ∈ props, p.1 ∉ acc.map Prod.fst) →
      props.foldl stepFn acc = acc ++ props.filterMap propOut := by
  induction props with
  | nil => intro acc _ _; simp
  | cons p rest ih =>
    intro acc hnd hdisj
    obtain ⟨k, sch⟩ := p
    simp only [List.map_cons, List.nodup_cons] at hnd
    simp only [List.foldl_cons, List.filterMap_cons]
    have hstep : stepFn acc (k, sch) =
        match insertedDefault sch with
        | some v => mapInsert acc k v
        | none => acc := elicitDefaultsStep_eq acc k sch
    rcases hv : insertedDefault sch with _ | v
    · rw [hstep]
      simp only [hv, propOut]
      rw [ih acc hnd.2 (fun q hq => hdisj q (List.mem_cons_of_mem _ hq))]
      simp [hv, propOut]
    · rw [hstep]
      simp only [hv]
      have hk : k ∉ acc.map Prod.fst := hdisj (k, sch) (List.mem_cons_self _ _)
      rw [mapInsert_eq_append acc k v hk]
      have hdisj2 : ∀ q ∈ rest, q.1 ∉ (acc ++ [(k, v)]).map Prod.fst := by
        intro q hq
        simp only [List.map_append, List.mem_append, List.map_cons, List.map_nil,
          List.mem_singleton, not_or]
        constructor
        · exact hdisj q (List.mem_cons_of_mem _ hq)
        · intro e
          exact hnd.1 (e ▸ List.mem_map_of_mem Prod.fst hq)
      rw [ih (acc ++ [(k, v)]) hnd.2 hdisj2]
      simp [propOut, hv]

/-- Keys outside the properties never appear in the defaults. -/
theorem jlookup_filterMap_none :
    ∀ (props : List (String × PrimitiveSchema)) (name : String),
      name ∉ props.map Prod.fst →
      jlookup (props.filterMap propOut) name = none := by
  intro props
  induction props with
  | nil => intro name _; rfl
  | cons p rest ih =>
    intro name h
    obtain ⟨k, sch⟩ := p
    simp only [List.map_cons, List.mem_cons, not_or] at h
    simp only [List.filterMap_cons]
    rcases hv : insertedDefault sch with _ | v
    · simp only [propOut, hv, Option.map_none]
      exact ih name h.2
    · simp only [propOut, hv, Option.map_some]
      simp only [jlookup]
      rw [if_neg (fun e => h.1 e.symm)]
      exact ih name h.2

/-- Looking up a property's key in the collected defaults returns
exactly what the handler inserts for its shape. -/
theorem jlookup_filterMap_props :
    ∀ (props : List (String × PrimitiveSchema)) (name : String)
      (sch : PrimitiveSchema),
      (props.map Prod.fst).Nodup → lookupProp props name = some sch →
      jlookup (props.filterMap propOut) name = insertedDefault sch := by
  intro props
  induction props with
  | nil => intro name sch _ hfind; simp [lookupProp] at hfind
  | cons p rest ih =>
    intro name sch hnd hfind
    obtain ⟨k, psch⟩ := p
    simp only [List.map_cons, List.nodup_cons] at hnd
    simp only [lookupProp] at hfind
    simp only [List.filterMap_cons]
    by_cases hk : k = name
    · rw [if_pos hk] at hfind
      have hps : psch = sch := Option.some.inj hfind
      subst hps
      rcases hv : insertedDefault psch with _ | v
      · simp only [propOut, hv, Option.map_none]
        exact jlookup_filterMap_none rest name (hk ▸ hnd.1)
      · simp only [propOut, hv, Option.map_some]
        simp only [jlookup]
        rw [if_pos hk]
    · rw [if_neg hk] at hfind
      rcases hv : insertedDefault psch with _ | v
      · simp only [propOut, hv, Option.map_none]
        exact ih name sch hnd.2 hfind
      · simp only [propOut, hv, Option.map_some]
        simp only [jlookup]
        rw [if_neg hk]
        exact ih name sch hnd.2 hfind

/-- On duplicate-free properties the fold is a filterMap. -/
theorem elicitDefaults_eq_filterMap (props : List (String × PrimitiveSchema))
    (hnd : (props.map Prod.fst).Nodup) :
    elicitDefaults props = props.filterMap propOut := by
  have h := elicitDefaults_go props [] hnd (by simp)
  simpa [elicitDefaults, stepFn] using h

/-- Away from the legacy enum, the handler inserts the declared
default. -/
theorem declaredDefault_eq_insertedDefault (sch : PrimitiveSchema)
    (h : ∀ l, sch ≠ .enum (.legacy l)) :
    declaredDefault sch = insertedDefault sch := by
  rcases sch with s | n | i | b | e
  · rfl
  · rfl
  · rfl
  · rfl
  · rcases e with (u | t) | (u | t) | l
    · rfl
    · rfl
    · rfl
    · rfl
    · exact absurd rfl (h l)

/-- C4 counterexample to the claim as stated: a legacy-enum property
that declares the default "opt1" is nevertheless absent from the
accepted content (the handler returns an empty object). -/
theorem claim_C4_cex_legacy_default_not_inserted :
    declaredDefault (.enum (.legacy ⟨["opt1", "opt2"], ["One", "Two"], none,
      some "opt1"⟩)) = some (Json.str "opt1") ∧
    ElicitationDefaultsClientHandler.create_elicitation
      (.formElicitationParams none "Please choose" legacyDefaultSchema) =
      ⟨ElicitationAction.accept, some (Json.obj [])⟩ ∧
    jlookup (elicitDefaults legacyDefaultSchema.properties) "choice" = none :=
  ⟨rfl, rfl, rfl⟩

/-- C4 amended: on the SEP-1034 defaults schema the handler accepts with
content equal to exactly the declared default map, and in general, for
every property of a duplicate-free form schema that is not a legacy
enum, the accepted content maps the property's name to exactly its
declared default (present if and only if one is declared); legacy-enum
defaults are dropped (see the counterexample). -/
theorem claim_C4_amended_elicitation_defaults :
    (ElicitationDefaultsClientHandler.create_elicitation
        (.formElicitationParams none "Please provide values (all have defaults)"
          sep1034Schema) =
      ⟨ElicitationAction.accept, some (Json.obj
        [("name", .str "John Doe"), ("age", .num 30),
         ("score", .num (95.5 : Rat)), ("status", .str "active"),
         ("verified", .bool true)])⟩) ∧
    ∀ (props : List (String × PrimitiveSchema)) (name : String)
      (sch : PrimitiveSchema),
      (props.map Prod.fst).Nodup →
      lookupProp props name = some sch →
      (∀ l, sch ≠ .enum (.legacy l)) →
      jlookup (elicitDefaults props) name = declaredDefault sch := by
  constructor
  · rfl
  · intro props name sch hnd hfind hnl
    rw [elicitDefaults_eq_filterMap props hnd,
      jlookup_filterMap_props props name sch hnd hfind,
      declaredDefault_eq_insertedDefault sch hnl]

/-- Witness for C4 at a concrete one-property schema with a declared
string default. -/
theorem claim_C4_witness :
    jlookup (elicitDefaults [("x", .string ⟨none, some "v"⟩)]) "x" =
      some (Json.str "v") := by
  have h := (claim_C4_amended_elicitation_defaults).2
    [("x", .string ⟨none, some "v"⟩)] "x" (.string ⟨none, some "v"⟩)
    (by simp) rfl (fun l h => by cases h)
  simpa using h

/-- C10: a property whose schema is the legacy enum variant never
contributes a value to the accepted content, whatever default it
declares. -/
theorem claim_C10_legacy_enum_defaults_dropped
    (props : List (String × PrimitiveSchema)) (name : String)
    (l : LegacyEnumSchema)
    (hnd : (props.map Prod.fst).Nodup)
    (hfind : lookupProp props name = some (.enum (.legacy l))) :
    jlookup (elicitDefaults props) name = none := by
  rw [elicitDefaults_eq_filterMap props hnd,
    jlookup_filterMap_props props name (.enum (.legacy l)) hnd hfind]
  rfl

/-- Witness for C10 at a concrete legacy-enum property with a declared
default. -/
theorem claim_C10_witness :
    jlookup (elicitDefaults demoLegacyProps) "pick" = none :=
  claim_C10_legacy_enum_defaults_dropped demoLegacyProps "pick"
    ⟨["a", "b"], ["A", "B"], none, some "a"⟩ (by decide) rfl

/-- A qualifying hit returns the 32 bytes after the pair. -/
theorem ecScanGo_hit (der : List Nat) (rem i : Nat) (h : ecQualifies der i) :
    ecScanGo der (rem + 1) i = some (.ok ((der.drop (i + 2)).take 32)) := by
  obtain ⟨h1, h2, h3⟩ := h
  simp only [ecScanGo, h1, h2]
  rw [if_pos ⟨trivial, trivial, h3⟩]
  unfold sliceOpt
  rw [if_pos (by omega)]
  have he : i + 34 - (i + 2) = 32 := by omega
  rw [he]

/-- A non-qualifying in-range position advances the scan. -/
theorem ecScanGo_skip (der : List Nat) (rem i : Nat)
    (hlt : i + 1 < der.length) (h : ¬ ecQualifies der i) :
    ecScanGo der (rem + 1) i = ecScanGo der rem (i + 1) := by
  obtain ⟨a, ha⟩ : ∃ a, der.get? i = some a := by
    cases hg : der.get? i with
    | none => exact absurd (List.get?_eq_none.mp hg) (by omega)
    | some a => exact ⟨a, rfl⟩
  obtain ⟨b, hb⟩ : ∃ b, der.get? (i + 1) = some b := by
    cases hg : der.get? (i + 1) with
    | none => exact absurd (List.get?_eq_none.mp hg) (by omega)
    | some b => exact ⟨b, rfl⟩
  have hne : ¬ (a = 4 ∧ b = 32 ∧ i + 34 ≤ der.length) := by
    intro ⟨e1, e2, e3⟩
    exact h ⟨e1 ▸ ha, e2 ▸ hb, e3⟩
  simp only [ecScanGo, ha, hb]
  rw [if_neg hne]

/-- Under the loop invariant, the scan lands on the first qualifying
position. -/
theorem ecScanGo_reaches_first (der : List Nat) :
    ∀ (rem i j : Nat), i + rem = der.length - 33 → i ≤ j →
      ecQualifies der j → (∀ k, i ≤ k → k < j → ¬ ecQualifies der k) →
      ecScanGo der rem i = some (.ok ((der.drop (j + 2)).take 32)) := by
  intro rem
  induction rem with
  | zero =>
    intro i j hinv hij hq hmin
    obtain ⟨_, _, h3⟩ := hq
    omega
  | succ rem ih =>
    intro i j hinv hij hq hmin
    rcases Nat.eq_or_lt_of_le hij with rfl | hlt
    · exact ecScanGo_hit der rem i hq
    · have hnq : ¬ ecQualifies der i := hmin i le_rfl hlt
      have hlen : i + 1 < der.length := by
        obtain ⟨_, _, h3⟩ := hq
        omega
      rw [ecScanGo_skip der rem i hlen hnq]
      exact ih (i + 1) j (by omega) (by omega) hq
        (fun k hk1 hk2 => hmin k (by omega) hk2)

/-- Without any qualifying position the scan exhausts the range and
errors. -/
theorem ecScanGo_none (der : List Nat) :
    ∀ (rem i : Nat), i + rem = der.length - 33 →
      (∀ j, i ≤ j → ¬ ecQualifies der j) →
      ecScanGo der rem i = some (.error ecExtractErr) := by
  intro rem
  induction rem with
  | zero => intro i _ _; rfl
  | succ rem ih =>
    intro i hinv hno
    have hnq : ¬ ecQualifies der i := hno i le_rfl
    have hlen : i + 1 < der.length := by omega
    rw [ecScanGo_skip der rem i hlen hnq]
    exact ih (i + 1) (by omega) (fun j hj => hno j (by omega))

/-- Extraction at the first qualifying position. -/
theorem extract_first_qual (der : List Nat) (i : Nat) (hq : ecQualifies der i)
    (hmin : ∀ k < i, ¬ ecQualifies der k) :
    extract_ec_private_key der = some (.ok ((der.drop (i + 2)).take 32)) :=
  ecScanGo_reaches_first der (der.length - 33) 0 i (by omega) (Nat.zero_le i)
    hq (fun k _ hk2 => hmin k hk2)

/-- Extraction fails cleanly when no position qualifies. -/
theorem extract_no_qual (der : List Nat) (hno : ∀ j, ¬ ecQualifies der j) :
    extract_ec_private_key der = some (.error ecExtractErr) :=
  ecScanGo_none der (der.length - 33) 0 (by omega) (fun j _ => hno j)

/-- C7: on every byte string extract_ec_private_key is total (the scan
never reads out of bounds, so the Option-wrapped panic never fires), and
it returns exactly the 32 bytes after the first occurrence of the pair
0x04 0x20 that is followed by at least 32 bytes, or the error when no
such occurrence exists - in particular on every input shorter than 34
bytes. -/
theorem claim_C7_extract_ec_private_key (der : List Nat) :
    (extract_ec_private_key der).isSome = true ∧
    (∀ bs, extract_ec_private_key der = some (.ok bs) →
      ∃ i, ecQualifies der i ∧ (∀ k < i, ¬ ecQualifies der k) ∧
        bs = (der.drop (i + 2)).take 32 ∧ bs.length = 32) ∧
    (∀ i, ecQualifies der i → (∀ k < i, ¬ ecQualifies der k) →
      extract_ec_private_key der = some (.ok ((der.drop (i + 2)).take 32))) ∧
    ((∀ i, ¬ ecQualifies der i) →
      extract_ec_private_key der = some (.error ecExtractErr)) ∧
    (der.length < 34 →
      extract_ec_private_key der = some (.error ecExtractErr)) := by
  have hlen32 : ∀ i, ecQualifies der i →
      ((der.drop (i + 2)).take 32).length = 32 := by
    intro i ⟨_, _, h3⟩
    simp [List.length_take, List.length_drop]
    omega
  refine ⟨?_, ?_, ?_, ?_, ?_⟩
  · rcases Classical.em (∃ j, ecQualifies der j) with h | h
    · have hspec := Nat.find_spec h
      have hmin : ∀ k < Nat.find h, ¬ ecQualifies der k :=
        fun k hk => Nat.find_min h hk
      rw [extract_first_qual der (Nat.find h) hspec hmin]
      rfl
    · push_neg at h
      rw [extract_no_qual der h]
      rfl
  · intro bs hbs
    rcases Classical.em (∃ j, ecQualifies der j) with h | h
    · have hspec := Nat.find_spec h
      have hmin : ∀ k < Nat.find h, ¬ ecQualifies der k :=
        fun k hk => Nat.find_min h hk
      rw [extract_first_qual der (Nat.find h) hspec hmin] at hbs
      have he := Option.some.inj hbs
      have : bs = (der.drop (Nat.find h + 2)).take 32 := by
        injection he with he2
        exact he2.symm
      exact ⟨Nat.find h, hspec, hmin, this, this ▸ hlen32 _ hspec⟩
    · push_neg at h
      rw [extract_no_qual der h] at hbs
      cases Option.some.inj hbs
  · exact fun i hq hmin => extract_first_qual der i hq hmin
  · exact extract_no_qual der
  · intro hshort
    refine extract_no_qual der (fun j hq => ?_)
    obtain ⟨_, _, h3⟩ := hq
    omega

/-- Witness for C7: a successful extraction on a 34-byte blob with the
pair at position 0, and the clean error on a 2-byte input. -/
theorem claim_C7_witness :
    extract_ec_private_key demoDer = some (.ok ((demoDer.drop 2).take 32)) ∧
    extract_ec_private_key [0, 1] = some (.error ecExtractErr) :=
  ⟨(claim_C7_extract_ec_private_key demoDer).2.2.1 0 (by decide)
      (fun k hk => absurd hk (Nat.not_lt_zero k)),
   (claim_C7_extract_ec_private_key [0, 1]).2.2.2.2 (by decide)⟩
